import Mathlib

/-!
# Fintech Calgary dashboard: the Events panel and the dashboard page

A shallow embedding of `src/components/Events.js` and `src/app/dashboard/page.js`.

Every handler of the Events component is a function from what the handler can
see (the state captured by the render it belongs to, its argument, and what the
browser or the network answered) to the list of operations it performs, in
program order: React state-setter calls, `fetch` calls, dialogs, and calls of
`fetchEvents`.  `run` applies the state-setter calls of such a list to a state,
and `withFetchEvents` puts the operations of `fetchEvents` where a handler calls
it.
-/

namespace Events

/-! ## Data -/

/-- An event record as the backend returns it. -/
structure Event where
  _id : String
  title : String
  description : String
  date : String
  imageUrl : String
  deriving DecidableEq, Repr

/-- The `formData` object.  `imageUrl = none` stands for an object without an
`imageUrl` property (reading it gives `undefined`). -/
structure FormData where
  title : String
  description : String
  date : String
  imageUrl : Option String
  deriving DecidableEq, Repr

/-- A file picked in the file input. -/
structure File where
  name : String
  deriving DecidableEq, Repr

/-- The values `response.json()` can resolve to, as far as the handlers look
into them: `null`, a string, an array of event records, or an object whose
members are strings. -/
inductive Json where
  | null
  | string (s : String)
  | array (items : List Event)
  | object (members : List (String × String))
  deriving DecidableEq, Repr

/-- What `await fetch(...)` followed by the reads of the response gives: the
`fetch` promise rejects, or it resolves to a response with its `ok` flag and the
value `response.json()` resolves to (`none` when `response.json()` rejects). -/
inductive FetchResult where
  | rejected
  | response (ok : Bool) (json : Option Json)
  deriving DecidableEq, Repr

/-- The body of a request: absent, the members `JSON.stringify` writes (in
order), or the parts of a multipart `FormData`. -/
inductive Body where
  | absent
  | json (members : List (String × String))
  | multipart (parts : List (String × File))
  deriving DecidableEq, Repr

/-- The arguments of one `fetch` call. -/
structure Request where
  method : String
  url : String
  headers : List (String × String)
  body : Body
  deriving DecidableEq, Repr

/-- The component state: the five `useState` cells. `events` holds whatever
`setEvents` was last given. -/
structure State where
  events : Json
  showForm : Bool
  editingEvent : Option Event
  uploading : Bool
  formData : FormData
  deriving DecidableEq, Repr

/-- One operation performed by a handler. `fetch` is a `fetch` call the handler
makes itself; `callFetchEvents` is the call `fetchEvents()` that is not awaited:
it starts a run of `fetchEvents`, whose own GET and `setEvents` belong to that
run (`withFetchEvents` puts them in its place). The last two are `setFormData`
given an updater function, which React runs when it renders: the one of line
202, which sets `imageUrl` to a constant, and the one of line 95, which reads
`data.url`. -/
inductive Op where
  | preventDefault
  | fetch (req : Request)
  | callFetchEvents
  | confirm (message : String)
  | alert (message : String)
  | consoleError (message : String)
  | setEvents (data : Json)
  | setShowForm (b : Bool)
  | setEditingEvent (e : Option Event)
  | setUploading (b : Bool)
  | setFormData (fd : FormData)
  | setFormDataImageUrl (url : Option String)
  | setFormDataUrlOf (data : Json)
  deriving DecidableEq, Repr

/-- The expression `data.url`: `none` when reading the property throws (`data`
is `null`), otherwise the property or `undefined`. -/
def dataUrl : Json → Option (Option String)
  | Json.null => none
  | Json.string _ => some none
  | Json.array _ => some none
  | Json.object members => some (members.lookup "url")

/-- The state of the first render (lines 14-23). -/
def initial : State :=
  { events := Json.array []
    showForm := false
    editingEvent := none
    uploading := false
    formData := { title := "", description := "", date := "", imageUrl := some "" } }

/-- The effect of one operation on the cells. `setFormDataImageUrl u` is the
functional update of line 202: the previous form data with its `imageUrl`
replaced by `u`. `setFormDataUrlOf data` is the functional update of line 95:
the previous form data with its `imageUrl` replaced by `data.url`; when reading
`data.url` throws, the updater gives no new form data, the cells stay as they
are and the render throws (`renderThrows`). -/
def applyOp (s : State) : Op → State
  | Op.setEvents data => { s with events := data }
  | Op.setShowForm b => { s with showForm := b }
  | Op.setEditingEvent e => { s with editingEvent := e }
  | Op.setUploading b => { s with uploading := b }
  | Op.setFormData fd => { s with formData := fd }
  | Op.setFormDataImageUrl u => { s with formData := { s.formData with imageUrl := u } }
  | Op.setFormDataUrlOf data =>
    match dataUrl data with
    | some u => { s with formData := { s.formData with imageUrl := u } }
    | none => s
  | _ => s

/-- The state after the operations of a handler. -/
def run (s : State) (ops : List Op) : State :=
  ops.foldl applyOp s

/-- The `fetch` calls among the operations, in order. -/
def requests : List Op → List Request
  | [] => []
  | Op.fetch r :: ops => r :: requests ops
  | _ :: ops => requests ops

/-- The number of calls of `fetchEvents` among the operations. -/
def refetches : List Op → Nat
  | [] => 0
  | Op.callFetchEvents :: ops => refetches ops + 1
  | _ :: ops => refetches ops

/-- The number of `alert` dialogs among the operations. -/
def alerts : List Op → Nat
  | [] => 0
  | Op.alert _ :: ops => alerts ops + 1
  | _ :: ops => alerts ops

/-- The state-setter calls among the operations. -/
def isSetter : Op → Bool
  | Op.setEvents _ => true
  | Op.setShowForm _ => true
  | Op.setEditingEvent _ => true
  | Op.setUploading _ => true
  | Op.setFormData _ => true
  | Op.setFormDataImageUrl _ => true
  | Op.setFormDataUrlOf _ => true
  | _ => false

/-- Whether the render that follows the operations throws: an updater given to
`setFormData` throws when React runs it. The handler that made the call has
returned from it by then, so its `try` does not see the exception. -/
def renderThrows : List Op → Bool
  | [] => false
  | Op.setFormDataUrlOf data :: ops => (dataUrl data).isNone || renderThrows ops
  | _ :: ops => renderThrows ops

/-! ## Platform functions -/

/-- `String.prototype.split` with a one-character separator, on the characters
of the string: the pieces between the separators, never an empty list. -/
def split (sep : Char) : List Char → List (List Char)
  | [] => [[]]
  | c :: cs =>
    if c = sep then [] :: split sep cs
    else
      match split sep cs with
      | [] => [[c]]
      | piece :: pieces => (c :: piece) :: pieces

/-- The expression `str.split(sep)[0]`. -/
def splitFirst (sep : Char) (str : String) : String :=
  String.mk ((split sep str.data).headD [])

/-- The members `JSON.stringify(formData)` writes: the own properties in
insertion order (`title`, `description`, `date`, then `imageUrl`), a property
that is absent or `undefined` being left out. -/
def jsonStringify (fd : FormData) : List (String × String) :=
  [("title", fd.title), ("description", fd.description), ("date", fd.date)] ++
    match fd.imageUrl with
    | some u => [("imageUrl", u)]
    | none => []

/-! ## The handlers of `Events` -/

/-- `fetchEvents` (lines 29-33). -/
def fetchEvents (res : FetchResult) : List Op :=
  Op.fetch { method := "GET", url := "/api/events", headers := [], body := Body.absent } ::
    match res with
    | FetchResult.rejected => []
    | FetchResult.response _ none => []
    | FetchResult.response _ (some data) => [Op.setEvents data]

/-- `handleSubmit` (lines 35-52), in the render that captured `s`. -/
def handleSubmit (s : State) (res : FetchResult) : List Op :=
  let url :=
    match s.editingEvent with
    | some ev => "/api/events/" ++ ev._id
    | none => "/api/events"
  let request : Request :=
    { method := if s.editingEvent.isSome then "PUT" else "POST"
      url := url
      headers := [("Content-Type", "application/json")]
      body := Body.json (jsonStringify s.formData) }
  [Op.preventDefault, Op.fetch request] ++
    match res with
    | FetchResult.response true _ =>
      [Op.setFormData { title := "", description := "", date := "", imageUrl := none },
       Op.setShowForm false,
       Op.setEditingEvent none,
       Op.callFetchEvents]
    | _ => []

/-- `handleDelete` (lines 54-64); `confirmed` is the answer of the `confirm`
dialog. -/
def handleDelete (eventId : String) (confirmed : Bool) (res : FetchResult) : List Op :=
  Op.confirm "Are you sure you want to delete this event?" ::
    if confirmed then
      Op.fetch { method := "DELETE", url := "/api/events/" ++ eventId, headers := [],
                 body := Body.absent } ::
        match res with
        | FetchResult.response true _ => [Op.callFetchEvents]
        | _ => []
    else []

/-- `handleEdit` (lines 66-74). -/
def handleEdit (event : Event) : List Op :=
  [Op.setEditingEvent (some event),
   Op.setFormData
     { title := event.title
       description := event.description
       date := splitFirst 'T' event.date
       imageUrl := none },
   Op.setShowForm true]

/-- `handleImageUpload` (lines 76-102); `file` is `e.target.files[0]`. -/
def handleImageUpload (file : Option File) (res : FetchResult) : List Op :=
  match file with
  | none => []
  | some f =>
    let failure := [Op.consoleError "Upload error:", Op.alert "Failed to upload image"]
    [Op.setUploading true,
     Op.fetch { method := "POST", url := "/api/upload", headers := [],
                body := Body.multipart [("file", f)] }] ++
      (match res with
       | FetchResult.rejected => failure
       | FetchResult.response false _ => failure
       | FetchResult.response true none => failure
       | FetchResult.response true (some data) => [Op.setFormDataUrlOf data]) ++
      [Op.setUploading false]

/-- The operations of a handler with those of the runs of `fetchEvents` it
starts: each call `fetchEvents()` is replaced by what `fetchEvents` does when
its request is answered by `refetch`. Both handlers that call it do so as their
last statement. -/
def withFetchEvents (refetch : FetchResult) : List Op → List Op
  | [] => []
  | Op.callFetchEvents :: ops => fetchEvents refetch ++ withFetchEvents refetch ops
  | op :: ops => op :: withFetchEvents refetch ops

/-- The `onClick` of the add-event button (lines 112-116), in the render that
captured `s`. -/
def addEventClick (s : State) : List Op :=
  [Op.setShowForm (!s.showForm),
   Op.setEditingEvent none,
   Op.setFormData { title := "", description := "", date := "", imageUrl := none }]

/-- The `onChange` of the title input (lines 137-139). -/
def titleChange (s : State) (value : String) : List Op :=
  [Op.setFormData { s.formData with title := value }]

/-- The `onChange` of the description textarea (lines 151-153). -/
def descriptionChange (s : State) (value : String) : List Op :=
  [Op.setFormData { s.formData with description := value }]

/-- The `onChange` of the date input (lines 165-167). -/
def dateChange (s : State) (value : String) : List Op :=
  [Op.setFormData { s.formData with date := value }]

/-- The `onClick` of the remove-image button (lines 201-203). -/
def removeImageClick : List Op :=
  [Op.setFormDataImageUrl (some "")]

/-! ## Sessions of use -/

/-- One thing that happens to the panel: a user action together with what the
browser and the network answered to the handler it starts (`refetch` to the
run of `fetchEvents` the handler may start), or the run of `fetchEvents` of the
mount effect (lines 25-27). -/
inductive Action where
  | addEvent
  | edit (event : Event)
  | typeTitle (value : String)
  | typeDescription (value : String)
  | typeDate (value : String)
  | removeImage
  | upload (file : Option File) (res : FetchResult)
  | submit (res : FetchResult) (refetch : FetchResult)
  | delete (eventId : String) (confirmed : Bool) (res : FetchResult) (refetch : FetchResult)
  | fetchEvents (res : FetchResult)
  deriving DecidableEq, Repr

/-- The operations a happening performs in the render that captured `s`. -/
def Action.ops (s : State) : Action → List Op
  | Action.addEvent => addEventClick s
  | Action.edit event => handleEdit event
  | Action.typeTitle value => titleChange s value
  | Action.typeDescription value => descriptionChange s value
  | Action.typeDate value => dateChange s value
  | Action.removeImage => removeImageClick
  | Action.upload file res => handleImageUpload file res
  | Action.submit res refetch => withFetchEvents refetch (handleSubmit s res)
  | Action.delete eventId confirmed res refetch =>
    withFetchEvents refetch (handleDelete eventId confirmed res)
  | Action.fetchEvents res => Events.fetchEvents res

/-- The state after one happening, each handler running to its end before the
next one starts. -/
def step (s : State) (a : Action) : State :=
  run s (a.ops s)

/-- The state after a session that starts from the first render. -/
def session (actions : List Action) : State :=
  actions.foldl step initial

/-- A record with a date without a time component. -/
def demoDay : Event :=
  { _id := "e1", title := "Demo Day", description := "Pitches", date := "2025-06-01",
    imageUrl := "/uploads/poster.png" }

/-- A record with a date as the backend serialises it. -/
def launchParty : Event :=
  { _id := "e2", title := "Launch", description := "Party",
    date := "2025-07-15T18:30:00.000Z", imageUrl := "/uploads/launch.png" }

end Events

namespace Dashboard

/-! ## The dashboard page -/

/-- A node of the rendered tree: an HTML element, a component instance, or a
text. -/
inductive Node where
  | element (tag : String)
  | component (name : String)
  | text (content : String)
  deriving DecidableEq, Repr

/-- A call on the router. -/
inductive Navigation where
  | push (route : String)
  deriving DecidableEq, Repr

/-- The effect of lines 18-22, run for the session status `status`. -/
def routeGuard (status : String) : List Navigation :=
  if status = "unauthenticated" then [Navigation.push "/login"] else []

/-- The greeting of lines 120-122; `email` is `session?.user?.email`. -/
def greeting (email : Option String) : String :=
  match email with
  | none => ""
  | some e =>
    let name := Events.splitFirst '@' e
    if name = "" then "" else " " ++ name

/-- The placeholder of lines 76-80. -/
def spinner : List Node :=
  [Node.element "div", Node.element "div"]

/-- The tree `DashboardPage` returns (lines 75-193), its nodes listed in
document order. -/
def render (status : String) (email : Option String) : List Node :=
  if status = "loading" then spinner
  else
    [Node.element "div",
       Node.component "Particles",
       Node.component "Navbar",
       Node.component "motion.main",
         Node.component "motion.div",
           Node.element "div",
           Node.element "div",
             Node.component "motion.div",
               Node.component "motion.div",
                 Node.text "Your Workspace",
               Node.element "div",
                 Node.element "h1",
                   Node.text "Welcome back",
                   Node.element "span",
                     Node.text (greeting email),
                 Node.element "p",
                   Node.text "Track your events and collaborate with your team members",
         Node.element "div",
           Node.component "motion.section",
             Node.element "div",
               Node.element "div",
                 Node.element "div",
                   Node.element "h2",
                     Node.text "Events",
                   Node.element "p",
                     Node.text "Manage your schedule",
                 Node.element "span",
                   Node.component "ChartBarIcon",
               Node.component "Events",
           Node.component "motion.section",
             Node.element "div",
               Node.element "div",
                 Node.element "div",
                   Node.element "h2",
                     Node.text "Team",
                   Node.element "p",
                     Node.text "Collaborate with others",
                 Node.element "span",
                   Node.component "UserGroupIcon",
               Node.component "Members"]

end Dashboard

/-! ## Properties of the Events panel -/

namespace Events

/-- The first piece of `split` is the longest run of leading characters that
are not the separator. -/
theorem split_headD (sep : Char) (cs : List Char) :
    (split sep cs).headD [] = cs.takeWhile (fun c => decide (c ≠ sep)) := by
  induction cs with
  | nil => rfl
  | cons c cs ih =>
    by_cases h : c = sep
    · simp [split, h]
    · cases hs : split sep cs with
      | nil => simp [split, h, hs] at ih ⊢; exact ih
      | cons piece pieces => simp [split, h, hs] at ih ⊢; exact ih

/-- The characters of `splitFirst`. -/
theorem splitFirst_data (sep : Char) (str : String) :
    (splitFirst sep str).data = str.data.takeWhile (fun c => decide (c ≠ sep)) := by
  show (split sep str.data).headD [] = _
  exact split_headD sep str.data

/-- What `dropWhile` leaves starts with a character that fails the test. -/
theorem dropWhile_ne_head (sep : Char) (cs : List Char) :
    cs.dropWhile (fun c => decide (c ≠ sep)) = [] ∨
      (cs.dropWhile (fun c => decide (c ≠ sep))).head? = some sep := by
  induction cs with
  | nil => exact Or.inl rfl
  | cons c cs ih =>
    by_cases h : c = sep
    · right; simp [List.dropWhile, h]
    · simpa [List.dropWhile, h] using ih

/-- C8: clicking the add-event button flips the form visibility and leaves the
edit target null, whatever it was; a second click restores the visibility. -/
theorem addEventClick_toggles (s : State) :
    (run s (addEventClick s)).showForm = !s.showForm ∧
    (run s (addEventClick s)).editingEvent = none ∧
    (run (run s (addEventClick s)) (addEventClick (run s (addEventClick s)))).showForm
      = s.showForm ∧
    (run (run s (addEventClick s)) (addEventClick (run s (addEventClick s)))).editingEvent
      = none := by
  simp [addEventClick, run, applyOp]

/-- C3: a submission whose response is OK leaves title, description and date
empty, the form hidden and the edit target null, and calls `fetchEvents` exactly
once: with that run put in, the requests are the one of the submission followed
by one GET of /api/events, the only GET, and the event list becomes what that
GET returns. -/
theorem handleSubmit_ok (s : State) (json : Option Json) (refetch : FetchResult) :
    (run s (handleSubmit s (FetchResult.response true json))).formData.title = "" ∧
    (run s (handleSubmit s (FetchResult.response true json))).formData.description = "" ∧
    (run s (handleSubmit s (FetchResult.response true json))).formData.date = "" ∧
    (run s (handleSubmit s (FetchResult.response true json))).showForm = false ∧
    (run s (handleSubmit s (FetchResult.response true json))).editingEvent = none ∧
    refetches (handleSubmit s (FetchResult.response true json)) = 1 ∧
    requests (withFetchEvents refetch (handleSubmit s (FetchResult.response true json)))
      = requests (handleSubmit s (FetchResult.response true json)) ++
        [{ method := "GET", url := "/api/events", headers := [], body := Body.absent }] ∧
    (requests (withFetchEvents refetch (handleSubmit s (FetchResult.response true json)))).filter
        (fun r => decide (r.method = "GET"))
      = [{ method := "GET", url := "/api/events", headers := [], body := Body.absent }] ∧
    (run s (withFetchEvents refetch
        (handleSubmit s (FetchResult.response true json)))).formData.title = "" ∧
    (run s (withFetchEvents refetch
        (handleSubmit s (FetchResult.response true json)))).formData.description = "" ∧
    (run s (withFetchEvents refetch
        (handleSubmit s (FetchResult.response true json)))).formData.date = "" ∧
    (run s (withFetchEvents refetch
        (handleSubmit s (FetchResult.response true json)))).showForm = false ∧
    (run s (withFetchEvents refetch
        (handleSubmit s (FetchResult.response true json)))).editingEvent = none ∧
    (∀ (ok : Bool) (data : Json),
      (run s (withFetchEvents (FetchResult.response ok (some data))
        (handleSubmit s (FetchResult.response true json)))).events = data) := by
  have hm : (if s.editingEvent.isSome = true then "PUT" else "POST") ≠ "GET" := by
    split <;> decide
  rcases refetch with _ | ⟨ok, _ | data⟩ <;>
    simp [handleSubmit, withFetchEvents, fetchEvents, run, applyOp, refetches, requests, hm]

/-- C4: a submission whose response is not OK calls no state setter, so the
state at its end is the state it started from (event list, form visibility,
edit target, form data and upload flag), as is any state the operations are
applied to; an open form stays open; `fetchEvents` is not called. -/
theorem handleSubmit_not_ok (s : State) (json : Option Json) :
    run s (handleSubmit s (FetchResult.response false json)) = s ∧
    (∀ t : State, run t (handleSubmit s (FetchResult.response false json)) = t) ∧
    (handleSubmit s (FetchResult.response false json)).all (fun op => !isSetter op) = true ∧
    (run s (handleSubmit s (FetchResult.response false json))).showForm = s.showForm ∧
    refetches (handleSubmit s (FetchResult.response false json)) = 0 := by
  simp [handleSubmit, run, applyOp, refetches, isSetter]

/-- C1: after the add-event button, the three text fields and an upload that
fails, the body of the submission has the members title, description and date
and no imageUrl; after the edit button of a record the same holds for the PUT. -/
theorem handleSubmit_body_without_imageUrl :
    requests (handleSubmit
        (session [Action.addEvent, Action.typeTitle "Demo Day",
          Action.typeDescription "Pitches", Action.typeDate "2025-06-01",
          Action.upload (some { name := "poster.png" }) FetchResult.rejected])
        (FetchResult.response true none))
      = [{ method := "POST", url := "/api/events",
           headers := [("Content-Type", "application/json")],
           body := Body.json [("title", "Demo Day"), ("description", "Pitches"),
                              ("date", "2025-06-01")] }] ∧
    requests (handleSubmit
        (session [Action.edit launchParty])
        (FetchResult.response true none))
      = [{ method := "PUT", url := "/api/events/e2",
           headers := [("Content-Type", "application/json")],
           body := Body.json [("title", "Launch"), ("description", "Party"),
                              ("date", "2025-07-15")] }] := by
  decide

/-- C2: a submission issues exactly one request, whatever the answer: a POST to
/api/events when the edit target is null, a PUT to /api/events/id when it is the
record with identifier id; its body is the JSON encoding of the form data. -/
theorem handleSubmit_request (s : State) (res : FetchResult) :
    (s.editingEvent = none →
      requests (handleSubmit s res)
        = [{ method := "POST", url := "/api/events",
             headers := [("Content-Type", "application/json")],
             body := Body.json (jsonStringify s.formData) }]) ∧
    (∀ ev : Event, s.editingEvent = some ev →
      requests (handleSubmit s res)
        = [{ method := "PUT", url := "/api/events/" ++ ev._id,
             headers := [("Content-Type", "application/json")],
             body := Body.json (jsonStringify s.formData) }]) := by
  constructor
  · intro h
    rcases res with _ | ⟨_ | _, json⟩ <;> simp [handleSubmit, requests, h]
  · intro ev h
    rcases res with _ | ⟨_ | _, json⟩ <;> simp [handleSubmit, requests, h]

theorem handleSubmit_request_witness :
    requests (handleSubmit initial (FetchResult.response false none))
        = [{ method := "POST", url := "/api/events",
             headers := [("Content-Type", "application/json")],
             body := Body.json [("title", ""), ("description", ""), ("date", ""),
                                ("imageUrl", "")] }] ∧
    requests (handleSubmit
        (session [Action.edit demoDay,
                  Action.upload (some { name := "new.png" })
                    (FetchResult.response true (some (Json.object [("url", "/uploads/new.png")])))])
        FetchResult.rejected)
        = [{ method := "PUT", url := "/api/events/e1",
             headers := [("Content-Type", "application/json")],
             body := Body.json [("title", "Demo Day"), ("description", "Pitches"),
                                ("date", "2025-06-01"), ("imageUrl", "/uploads/new.png")] }] :=
  ⟨(handleSubmit_request initial (FetchResult.response false none)).1 rfl,
   (handleSubmit_request _ FetchResult.rejected).2 demoDay rfl⟩

/-- C5: when the prompt is declined, handleDelete issues no request, does not
call `fetchEvents` and leaves the state as it was; when it is accepted, it
issues exactly one request of its own, the DELETE to /api/events/id, and calls
`fetchEvents` once when the response is OK and not at all when it is not OK or
when the request throws: with that run put in, an OK response is followed by
one GET of /api/events, whose answer becomes the event list, and any other
answer by no request at all, the event list staying as it was. -/
theorem handleDelete_outcome (s : State) (eventId : String) (res : FetchResult)
    (json : Option Json) (refetch : FetchResult) :
    requests (handleDelete eventId false res) = [] ∧
    refetches (handleDelete eventId false res) = 0 ∧
    requests (withFetchEvents refetch (handleDelete eventId false res)) = [] ∧
    run s (withFetchEvents refetch (handleDelete eventId false res)) = s ∧
    requests (handleDelete eventId true res)
      = [{ method := "DELETE", url := "/api/events/" ++ eventId, headers := [],
           body := Body.absent }] ∧
    refetches (handleDelete eventId true (FetchResult.response true json)) = 1 ∧
    refetches (handleDelete eventId true (FetchResult.response false json)) = 0 ∧
    refetches (handleDelete eventId true FetchResult.rejected) = 0 ∧
    requests (withFetchEvents refetch (handleDelete eventId true (FetchResult.response true json)))
      = [{ method := "DELETE", url := "/api/events/" ++ eventId, headers := [],
           body := Body.absent },
         { method := "GET", url := "/api/events", headers := [], body := Body.absent }] ∧
    requests (withFetchEvents refetch (handleDelete eventId true (FetchResult.response false json)))
      = [{ method := "DELETE", url := "/api/events/" ++ eventId, headers := [],
           body := Body.absent }] ∧
    requests (withFetchEvents refetch (handleDelete eventId true FetchResult.rejected))
      = [{ method := "DELETE", url := "/api/events/" ++ eventId, headers := [],
           body := Body.absent }] ∧
    (∀ (ok : Bool) (data : Json),
      (run s (withFetchEvents (FetchResult.response ok (some data))
        (handleDelete eventId true (FetchResult.response true json)))).events = data) ∧
    run s (withFetchEvents refetch (handleDelete eventId true (FetchResult.response false json)))
      = s ∧
    run s (withFetchEvents refetch (handleDelete eventId true FetchResult.rejected)) = s := by
  rcases res with _ | ⟨_ | _, j⟩ <;> rcases refetch with _ | ⟨ok, _ | data⟩ <;>
    simp [handleDelete, withFetchEvents, fetchEvents, requests, refetches, run, applyOp]

/-- C6: handleEdit sets the edit target to the record, shows the form, and
fills the form with the record's title and description and with the part of the
record's date before its first T: the date is that part followed by nothing or
by a rest that starts with T, the part contains no T, and it is the whole date
when the date contains no T. -/
theorem handleEdit_populates (s : State) (event : Event) :
    (run s (handleEdit event)).editingEvent = some event ∧
    (run s (handleEdit event)).showForm = true ∧
    (run s (handleEdit event)).formData.title = event.title ∧
    (run s (handleEdit event)).formData.description = event.description ∧
    (∃ rest : List Char,
      event.date.data = (run s (handleEdit event)).formData.date.data ++ rest ∧
      (rest = [] ∨ rest.head? = some 'T')) ∧
    'T' ∉ (run s (handleEdit event)).formData.date.data ∧
    ('T' ∉ event.date.data → (run s (handleEdit event)).formData.date = event.date) := by
  have hdate : (run s (handleEdit event)).formData.date = splitFirst 'T' event.date := by
    simp [handleEdit, run, applyOp]
  refine ⟨by simp [handleEdit, run, applyOp], by simp [handleEdit, run, applyOp],
    by simp [handleEdit, run, applyOp], by simp [handleEdit, run, applyOp], ?_, ?_, ?_⟩
  · rw [hdate, splitFirst_data]
    refine ⟨event.date.data.dropWhile (fun c => decide (c ≠ 'T')), ?_, ?_⟩
    · exact (List.takeWhile_append_dropWhile _ _).symm
    · exact dropWhile_ne_head 'T' event.date.data
  · rw [hdate, splitFirst_data]
    intro hmem
    have := List.mem_takeWhile_imp hmem
    simp at this
  · intro hno
    rw [hdate]
    have hd : (splitFirst 'T' event.date).data = event.date.data := by
      rw [splitFirst_data, List.takeWhile_eq_self_iff]
      intro c hc
      have : c ≠ 'T' := fun h => hno (h ▸ hc)
      simpa using this
    exact String.ext hd

theorem handleEdit_populates_witness :
    (run initial (handleEdit demoDay)).formData.date = "2025-06-01" ∧
    (run initial (handleEdit launchParty)).formData.date = "2025-07-15" ∧
    'T' ∉ (run initial (handleEdit launchParty)).formData.date.data :=
  ⟨(handleEdit_populates initial demoDay).2.2.2.2.2.2 (by decide), by decide,
   (handleEdit_populates initial launchParty).2.2.2.2.2.1⟩

/-- An OK response whose body is the JSON value null: the handler shows no
alert, the updater it gave to `setFormData` throws when React runs it, and the
cells keep the `imageUrl` they had. -/
theorem handleImageUpload_null_body :
    alerts (handleImageUpload (some { name := "poster.png" })
      (FetchResult.response true (some Json.null))) = 0 ∧
    renderThrows (handleImageUpload (some { name := "poster.png" })
      (FetchResult.response true (some Json.null))) = true ∧
    (run (session [Action.addEvent]) (handleImageUpload (some { name := "poster.png" })
      (FetchResult.response true (some Json.null)))).formData.imageUrl = none := by
  decide

/-- C7, as stated, fails: the response is OK and the request did not throw, but
the body is not JSON, so `response.json()` rejects inside the `try`; one alert
is shown and `imageUrl` stays absent. -/
theorem handleImageUpload_ok_unreadable_body :
    alerts (handleImageUpload (some { name := "poster.png" })
      (FetchResult.response true none)) = 1 ∧
    (run (session [Action.addEvent]) (handleImageUpload (some { name := "poster.png" })
      (FetchResult.response true none))).formData.imageUrl = none ∧
    (session [Action.addEvent]).formData.imageUrl = none := by
  decide

/-- C7, amended: for a run of handleImageUpload with a selected file whose
answer is not an OK response with the JSON body null: title, description and
date stay as they were, the upload flag ends false and no render throws; when
the request throws, the response is not OK, or the body of an OK response is
not JSON, the imageUrl is unchanged and exactly one alert is shown; when the
response is OK with a JSON body, the imageUrl is the url of that body and no
alert is shown. -/
theorem handleImageUpload_outcome (s : State) (file : File) (res : FetchResult)
    (hres : res ≠ FetchResult.response true (some Json.null)) :
    (run s (handleImageUpload (some file) res)).formData.title = s.formData.title ∧
    (run s (handleImageUpload (some file) res)).formData.description
      = s.formData.description ∧
    (run s (handleImageUpload (some file) res)).formData.date = s.formData.date ∧
    (run s (handleImageUpload (some file) res)).uploading = false ∧
    renderThrows (handleImageUpload (some file) res) = false ∧
    ((res = FetchResult.rejected ∨ (∃ json, res = FetchResult.response false json) ∨
        res = FetchResult.response true none) →
      (run s (handleImageUpload (some file) res)).formData.imageUrl = s.formData.imageUrl ∧
      alerts (handleImageUpload (some file) res) = 1) ∧
    (∀ data, res = FetchResult.response true (some data) →
      dataUrl data = some (run s (handleImageUpload (some file) res)).formData.imageUrl ∧
      alerts (handleImageUpload (some file) res) = 0) := by
  rcases res with _ | ⟨_ | _, _ | data⟩
  · simp [handleImageUpload, run, applyOp, alerts, renderThrows]
  · simp [handleImageUpload, run, applyOp, alerts, renderThrows]
  · simp [handleImageUpload, run, applyOp, alerts, renderThrows]
  · simp [handleImageUpload, run, applyOp, alerts, renderThrows]
  · cases data with
    | null => exact absurd rfl hres
    | string str => simp [handleImageUpload, run, applyOp, alerts, renderThrows, dataUrl]
    | array items => simp [handleImageUpload, run, applyOp, alerts, renderThrows, dataUrl]
    | object members => simp [handleImageUpload, run, applyOp, alerts, renderThrows, dataUrl]

theorem handleImageUpload_outcome_witness :
    ((run (session [Action.addEvent]) (handleImageUpload (some { name := "poster.png" })
        (FetchResult.response false none))).formData.imageUrl = none ∧
      alerts (handleImageUpload (some { name := "poster.png" })
        (FetchResult.response false none)) = 1) ∧
    ((run (session [Action.addEvent]) (handleImageUpload (some { name := "poster.png" })
        (FetchResult.response true (some (Json.object [("url", "/uploads/poster.png")]))))
        ).formData.imageUrl = some "/uploads/poster.png" ∧
      alerts (handleImageUpload (some { name := "poster.png" })
        (FetchResult.response true (some (Json.object [("url", "/uploads/poster.png")]))))
        = 0) :=
  ⟨(handleImageUpload_outcome (session [Action.addEvent]) { name := "poster.png" }
      (FetchResult.response false none) (by decide)).2.2.2.2.2.1 (Or.inr (Or.inl ⟨none, rfl⟩)),
   by
     have h := (handleImageUpload_outcome (session [Action.addEvent]) { name := "poster.png" }
       (FetchResult.response true (some (Json.object [("url", "/uploads/poster.png")])))
       (by decide)).2.2.2.2.2.2 (Json.object [("url", "/uploads/poster.png")]) rfl
     exact ⟨(Option.some.inj h.1).symm, h.2⟩⟩

/-- C9: with the list holding one record, a run of fetchEvents whose response
is not OK and carries an error object as JSON body leaves the error object in
the list cell: neither the prior list nor the empty list. -/
theorem fetchEvents_not_ok_stores_body :
    (run { initial with events := Json.array [demoDay] }
        (fetchEvents (FetchResult.response false
          (some (Json.object [("error", "Unauthorized")]))))).events
      = Json.object [("error", "Unauthorized")] ∧
    Json.object [("error", "Unauthorized")] ≠ Json.array [demoDay] ∧
    Json.object [("error", "Unauthorized")] ≠ Json.array [] := by
  decide

end Events

/-! ## Properties of the dashboard page -/

namespace Dashboard

/-- C10: the route guard asks for a navigation, to /login, exactly when the
status is unauthenticated; the page renders the placeholder, a div holding the
spinner div and nothing else, so neither the Events nor the Members panel,
exactly when the status is loading; for every other status the rendered tree
holds both panels. -/
theorem dashboardPage_status (status : String) (email : Option String) :
    (Navigation.push "/login" ∈ routeGuard status ↔ status = "unauthenticated") ∧
    (routeGuard status ≠ [] ↔ status = "unauthenticated") ∧
    ((render status email = [Node.element "div", Node.element "div"] ∧
        Node.component "Events" ∉ render status email ∧
        Node.component "Members" ∉ render status email) ↔ status = "loading") ∧
    (status ≠ "loading" →
      Node.component "Events" ∈ render status email ∧
      Node.component "Members" ∈ render status email) := by
  refine ⟨?_, ?_, ?_, ?_⟩
  · by_cases h : status = "unauthenticated" <;> simp [routeGuard, h]
  · by_cases h : status = "unauthenticated" <;> simp [routeGuard, h]
  · by_cases h : status = "loading"
    · simp [render, spinner, h]
    · simp [render, spinner, h]
  · intro h
    simp [render, h]

theorem dashboardPage_status_witness :
    (Node.component "Events" ∈ render "unauthenticated" none ∧
      Node.component "Members" ∈ render "unauthenticated" none) ∧
    (render "loading" (some "ada@example.com") = [Node.element "div", Node.element "div"] ∧
      Node.component "Events" ∉ render "loading" (some "ada@example.com") ∧
      Node.component "Members" ∉ render "loading" (some "ada@example.com")) :=
  ⟨(dashboardPage_status "unauthenticated" none).2.2.2 (by decide),
   (dashboardPage_status "loading" (some "ada@example.com")).2.2.1.mpr rfl⟩

end Dashboard
